import Mathlib

/-!
Verification of the session-monitoring / error-classification scripts of the
persona-chain repository against their natural-language specification.

The embedding covers:
* `debug_credentials.py` — the session recorder (`handle_console`,
  `handle_request`, `handle_response`, `handle_page_error`) and the final
  aggregation block of `comprehensive_debug_investigation`;
* `debug_wallet_errors.py` — the console-message classification
  (`suppressed_errors` / `genuine_errors`) of `analyze_wallet_errors`;
* `final_personapass_test.py` — `analyze_javascript_for_real_errors`,
  including the semantics of Python `re` pattern compilation (an escape of the
  form backslash-letter that is not a recognised escape raises `re.error`);
* `apps/wallet/advanced_personapass_test.py` — the per-script fetch loop of
  `run_alternative_simulation`, the embedded Node simulation's script loop,
  and the derivation of `syntax_errors_found` / `node_errors_found` /
  `error_suppression_working` in `run_comprehensive_test`.

Timestamps (`datetime.now().isoformat()`) are supplied by the environment and
are never inspected by any of the logic the claims concern; they are omitted
from the embedded records.  Console printing is I/O that does not feed back
into any recorded state; where a claim is about what gets *emitted*, the
emitted lines are modelled as an explicit result list.
-/

/-! ## Generic string helpers (substring search, Python/JS findall on literals) -/

/-- Does the pattern occur as a contiguous sublist?  Embeds Python's
`pat in s` on strings (as lists of characters). -/
def hasSublist (pat : List Char) : List Char → Bool
  | [] => pat.isEmpty
  | c :: rest => pat.isPrefixOf (c :: rest) || hasSublist pat rest

/-- Python's `pat in s` substring test on `String`. -/
def strContains (s pat : String) : Bool := hasSublist pat.data s.data

/-- Python's `s.lower()` (character-wise lower-casing; the texts the scripts
inspect are ASCII). -/
def strLower (s : String) : String := ⟨s.data.map Char.toLower⟩

/-- Python's `s.endswith(pat)` / JavaScript's `s.endsWith(pat)`: suffix test. -/
def strEndsWith (s pat : String) : Bool := pat.data.isSuffixOf s.data

/-- All non-overlapping occurrences of a literal pattern, scanned left to
right — the semantics of `re.findall` (and of JavaScript `String.match` with a
global flag) on a pattern with no metacharacters.  Each returned element is
the matched text itself. -/
def findallLit (pat : List Char) : List Char → List (List Char)
  | [] => []
  | c :: rest =>
    if pat ≠ [] && pat.isPrefixOf (c :: rest) then
      ((c :: rest).take pat.length) :: findallLit pat (rest.drop (pat.length - 1))
    else
      findallLit pat rest
termination_by s => s.length
decreasing_by
  · simp only [List.length_drop, List.length_cons]
    omega
  · simp only [List.length_cons]
    omega

/-- Case-insensitive variant of `findallLit`: occurrences are located on the
lower-cased text, and the matched slice of the original text is returned,
matching `re.findall` under `re.IGNORECASE`. -/
def findallLitCI (pat : List Char) : List Char → List (List Char)
  | [] => []
  | c :: rest =>
    if pat ≠ [] && (pat.map Char.toLower).isPrefixOf ((c :: rest).map Char.toLower) then
      ((c :: rest).take pat.length) :: findallLitCI pat (rest.drop (pat.length - 1))
    else
      findallLitCI pat rest
termination_by s => s.length
decreasing_by
  · simp only [List.length_drop, List.length_cons]
    omega
  · simp only [List.length_cons]
    omega

/-- Index of the first occurrence of `pat` in `s`, if any. -/
def firstIdxOf (pat : List Char) : List Char → Option Nat
  | [] => if pat.isEmpty then some 0 else none
  | c :: rest =>
    if pat.isPrefixOf (c :: rest) then some 0
    else (firstIdxOf pat rest).map (· + 1)

/-- Index of the last occurrence of `pat` in `s`, if any. -/
def lastIdxOf (pat : List Char) : List Char → Option Nat
  | [] => if pat.isEmpty then some 0 else none
  | c :: rest =>
    match lastIdxOf pat rest with
    | some i => some (i + 1)
    | none => if pat.isPrefixOf (c :: rest) then some 0 else none

/-- Split a character list on newline characters. -/
def splitLines (s : List Char) : List (List Char) :=
  match s with
  | [] => [[]]
  | c :: rest =>
    let tail := splitLines rest
    if c = '\n' then [] :: tail
    else match tail with
      | [] => [[c]]
      | l :: ls => (c :: l) :: ls

/-- Matches of the regex `pre.*post` (greedy `.*`, which does not cross a
newline, no flags) within a single line: the scan matches at the first
occurrence of `pre`, the greedy `.*` extends to the last occurrence of `post`
on the line, and no second match can follow on the same line (any later
`post` would have been that last occurrence). -/
def dotStarLine (pre post line : List Char) : List (List Char) :=
  match firstIdxOf pre line, lastIdxOf post line with
  | some i, some j =>
    if i + pre.length ≤ j then [(line.drop i).take (j + post.length - i)] else []
  | _, _ => []

/-- `re.findall` of `pre.*post` over a whole text: per-line matching. -/
def dotStarAll (pre post : List Char) (s : List Char) : List (List Char) :=
  (splitLines s).flatMap (dotStarLine pre post)

/-- `headers.get(key, '')` over an association list of header pairs
(keys already lower-cased by the driver). -/
def headerGet (hs : List (String × String)) (k : String) : String :=
  match hs.find? (fun p => p.1 == k) with
  | some p => p.2
  | none => ""

/-! ## `debug_credentials.py` — session recorder and aggregation -/

/-- One entry of `debug_data['console_logs']`, as appended by
`handle_console` (timestamp omitted, see the file header). -/
structure ConsoleEntry where
  type : String
  text : String
  location : Option String
deriving DecidableEq, Repr

/-- One entry of `debug_data['errors']`, as appended by `handle_page_error`. -/
structure ErrorEntry where
  message : String
  type : String
deriving DecidableEq, Repr

/-- Playwright's `response.ok`: status in the 200–299 range. -/
def respOk (status : Nat) : Bool := 200 ≤ status && status ≤ 299

/-- The network-response data observable by `handle_response`:
`response.url`, `response.status`, `response.status_text`,
`response.headers` (keys lower-cased by the driver). -/
structure RespData where
  url : String
  status : Nat
  status_text : String
  headers : List (String × String)
deriving DecidableEq, Repr

/-- The keys merged into a stored request entry by
`req.update({'status': …, 'status_text': …, 'headers_response': …, 'ok': …})`. -/
structure RespInfo where
  status : Nat
  status_text : String
  headers_response : List (String × String)
  ok : Bool
deriving DecidableEq, Repr

/-- The response fields that `handle_response` merges into the matched
request entry. -/
def respInfoOf (r : RespData) : RespInfo :=
  { status := r.status
    status_text := r.status_text
    headers_response := r.headers
    ok := respOk r.status }

/-- One entry of `debug_data['network_requests']`: the fields recorded by
`handle_request`, plus the response fields (`none` until `handle_response`
merges them in). -/
structure RequestEntry where
  method : String
  url : String
  headers : List (String × String)
  resource_type : String
  response : Option RespInfo
deriving DecidableEq, Repr

/-- `debug_data['page_state']` fields read by the final-analysis block:
`js_execution` (absent until the JS-execution test runs; `.get` defaults it
to `True`) and `error_boundary` (a string; Python truthiness, so the empty
string counts as absent). -/
structure PageState where
  js_execution : Option Bool
  error_boundary : Option String
deriving DecidableEq, Repr

/-- The mutable `debug_data` record of `comprehensive_debug_investigation`
(the fields the recorder handlers and the final-analysis block touch). -/
structure DebugData where
  console_logs : List ConsoleEntry
  network_requests : List RequestEntry
  errors : List ErrorEntry
  page_state : PageState
deriving DecidableEq, Repr

/-- `handle_console`: append the console entry to `console_logs`. -/
def handle_console (d : DebugData) (m : ConsoleEntry) : DebugData :=
  { d with console_logs := d.console_logs ++ [m] }

/-- `handle_request`: append a new request entry (no response fields yet)
to `network_requests`. -/
def handle_request (d : DebugData) (method url : String)
    (headers : List (String × String)) (resource_type : String) : DebugData :=
  { d with network_requests :=
      d.network_requests ++
        [{ method := method, url := url, headers := headers,
           resource_type := resource_type, response := none }] }

/-- `handle_page_error`: append the error entry to `errors`. -/
def handle_page_error (d : DebugData) (e : ErrorEntry) : DebugData :=
  { d with errors := d.errors ++ [e] }

/-- The correlation loop of `handle_response`: iterate over the stored
request entries in order, merge the response fields into the *first* entry
whose `url` equals `response.url` (whether or not that entry already carries
response fields), and `break`; if no entry matches, the list is unchanged. -/
def updateFirst (reqs : List RequestEntry) (resp : RespData) : List RequestEntry :=
  match reqs with
  | [] => []
  | r :: rs =>
    if r.url = resp.url then { r with response := some (respInfoOf resp) } :: rs
    else r :: updateFirst rs resp

/-- `handle_response`'s effect on `debug_data`: only the correlation merge;
nothing is appended to any log. -/
def handle_response (d : DebugData) (resp : RespData) : DebugData :=
  { d with network_requests := updateFirst d.network_requests resp }

/-- The lines printed by the MIME-type check of `handle_response`.  The check
sits inside the `if not response.ok:` branch: it runs only for non-success
responses, reads `content-type` (default `''`), and reports a `.js` URL whose
content type lacks `javascript`, else a `.css` URL whose content type lacks
`css`. -/
def mime_issues (resp : RespData) : List String :=
  if respOk resp.status then []
  else
    let content_type := headerGet resp.headers "content-type"
    if strEndsWith resp.url ".js" && !(strContains content_type "javascript") then
      ["MIME TYPE ISSUE: JS file served as " ++ content_type]
    else if strEndsWith resp.url ".css" && !(strContains content_type "css") then
      ["MIME TYPE ISSUE: CSS file served as " ++ content_type]
    else []

/-- `error_logs`: console entries whose `type` is `'error'`. -/
def error_logs_of (d : DebugData) : List ConsoleEntry :=
  d.console_logs.filter (fun l => l.type == "error")

/-- `'status' in req and not req.get('ok', True)`: the entry carries merged
response fields and their `ok` flag is false. -/
def reqFailed (r : RequestEntry) : Bool :=
  match r.response with
  | some i => !i.ok
  | none => false

/-- `failed_requests`: stored requests with a recorded non-ok response. -/
def failed_requests_of (d : DebugData) : List RequestEntry :=
  d.network_requests.filter reqFailed

/-- A stored request that carries recorded response fields. -/
def reqResponded (r : RequestEntry) : Bool := r.response.isSome

/-- The `summary` dict built by the final-analysis block (lines 242–267):
critical issues are appended in source order — console errors, failed
requests, failed JS execution, activated error boundary. -/
structure Summary where
  critical_issues : List String
  warnings : List String
  recommendations : List String
deriving DecidableEq, Repr

/-- The final-analysis block as a function of the frozen `debug_data`. -/
def buildSummary (d : DebugData) : Summary :=
  let error_logs := error_logs_of d
  let failed := failed_requests_of d
  let c1 := if error_logs.length > 0 then
      [toString error_logs.length ++ " console errors detected"] else []
  let c2 := if failed.length > 0 then
      [toString failed.length ++ " failed network requests"] else []
  let c3 := if !(d.page_state.js_execution.getD true) then
      ["JavaScript execution failed"] else []
  let c4 := if (match d.page_state.error_boundary with
      | some s => s != ""
      | none => false) then ["Error boundary activated"] else []
  { critical_issues := c1 ++ c2 ++ c3 ++ c4, warnings := [], recommendations := [] }

/-- The final-analysis step threaded through the state it reads: the block
only reads `debug_data` and writes the fresh `summary`, so the state
component passes through. -/
def comprehensive_final_analysis (d : DebugData) : DebugData × Summary :=
  (d, buildSummary d)

/-! ## `debug_wallet_errors.py` — console-message classification -/

/-- `'suppressed' in msg['text'].lower()`. -/
def isSuppressedMsg (m : ConsoleEntry) : Bool :=
  strContains (strLower m.text) "suppressed"

/-- `suppressed_errors` of `analyze_wallet_errors` (line 201): console
messages whose text mentions `suppressed`, case-insensitively. -/
def suppressed_errors (msgs : List ConsoleEntry) : List ConsoleEntry :=
  msgs.filter isSuppressedMsg

/-- `genuine_errors` of `analyze_wallet_errors` (line 202): console messages
of type `'error'` whose text does not mention `suppressed`. -/
def genuine_errors (msgs : List ConsoleEntry) : List ConsoleEntry :=
  msgs.filter (fun m => m.type == "error" && !(isSuppressedMsg m))

/-- The derived counters returned by `analyze_wallet_errors`. -/
structure WalletStats where
  suppressed_count : Nat
  genuine_error_count : Nat
deriving DecidableEq, Repr

/-- The recommendations block of `analyze_wallet_errors` (lines 200–205) as a
function threaded through the console log it reads: it only filters the
frozen `console_messages`, mutating nothing. -/
def wallet_recommendations (msgs : List ConsoleEntry) : List ConsoleEntry × WalletStats :=
  (msgs,
   { suppressed_count := (suppressed_errors msgs).length
     genuine_error_count := (genuine_errors msgs).length })

/-! ## `final_personapass_test.py` — `analyze_javascript_for_real_errors`

Python compiles each regex as `re.findall` receives it.  Since Python 3.7 an
escape `\c` whose `c` is an ASCII letter that is not one of the recognised
escapes raises `re.error("bad escape …")`; the classifier's sixth
error-handling pattern contains `\includes` and its seventh `\message`, so
compilation fails at `\i` before any verdict can be produced. -/

/-- The ASCII letters that Python's `re` accepts after a backslash
(`\A \b \B \d \D \s \S \w \W \Z` and the character escapes
`\a \f \n \r \t \v \x \u \U \N`). -/
def allowedEscapeLetters : List Char :=
  ['A', 'b', 'B', 'd', 'D', 's', 'S', 'w', 'W', 'Z',
   'a', 'f', 'n', 'r', 't', 'v', 'x', 'u', 'U', 'N']

/-- Scan a regex source for the first bad escape: a backslash followed by an
ASCII letter outside `allowedEscapeLetters` is `re.error("bad escape")`. -/
def scanBadEscape : List Char → Option Char
  | [] => none
  | ['\\'] => none
  | '\\' :: c :: rest =>
    if c.isAlpha && !(allowedEscapeLetters.contains c) then some c
    else scanBadEscape rest
  | _ :: rest => scanBadEscape rest

/-- `re.error`, as raised during pattern compilation. -/
inductive ReError where
  | badEscape (c : Char)
deriving DecidableEq, Repr

/-- Strip the escaping backslashes from a regex that is a pure literal
(every backslash escapes a punctuation character), recovering the literal
text it matches.  Within `analyze_javascript_for_real_errors` only the first
five error-handling patterns — all literal regexes — are ever matched, the
sixth failing to compile; this function is only reached for those. -/
def unescapeLit : List Char → List Char
  | [] => []
  | ['\\'] => ['\\']
  | '\\' :: c :: rest => c :: unescapeLit rest
  | c :: rest => c :: unescapeLit rest

/-- One pattern group of the classifier: `for pattern in patterns:` compile
(raising `re.error` on a bad escape) and `re.findall` with
`re.MULTILINE | re.IGNORECASE`, accumulating the match count and the matched
texts in pattern order. -/
def runPatternGroup (pats : List String) (text : String) :
    Except ReError (Nat × List String) :=
  match pats with
  | [] => .ok (0, [])
  | p :: rest =>
    match scanBadEscape p.data with
    | some c => .error (.badEscape c)
    | none =>
      match runPatternGroup rest text with
      | .error e => .error e
      | .ok (n, ms) =>
        let found := findallLitCI (unescapeLit p.data) text.data
        .ok (found.length + n, found.map List.asString ++ ms)

/-- `error_handling_patterns` of `analyze_javascript_for_real_errors`
(source lines 20–32), verbatim regex sources. -/
def error_handling_patterns : List String :=
  ["\"SyntaxError\"",
   "\x27SyntaxError\x27",
   "\\.includes\\(\"SyntaxError\"\\)",
   "\\.includes\\(\"Invalid or unexpected token\"\\)",
   "\\.includes\\(\"Node cannot be found\"\\)",
   "message\\?\\.\\includes\\(\"Node",
   "error\\?\\.\\message\\.includes\\(\"Node",
   "catch\\s*\\(\\s*\\w+\\s*\\)\\s*\x7b[^\x7d]*SyntaxError",
   "if\\s*\\([^)]*SyntaxError[^)]*\\)",
   "===\\s*\"SyntaxError\"",
   "!==\\s*\"SyntaxError\""]

/-- `actual_error_patterns` of `analyze_javascript_for_real_errors`
(source lines 35–41), verbatim regex sources. -/
def actual_error_patterns : List String :=
  ["^SyntaxError:",
   "Uncaught SyntaxError",
   "^\\s*throw new SyntaxError",
   "console\\.error.*SyntaxError",
   "SyntaxError.*at\\s+line"]

/-- The dict returned by `analyze_javascript_for_real_errors` when both
pattern loops complete. -/
structure AnalysisResult where
  error_handling_patterns : Nat
  actual_errors : Nat
  error_handling_examples : List String
  actual_error_examples : List String
  likely_error_suppression : Bool
deriving DecidableEq, Repr

/-- `analyze_javascript_for_real_errors`: run the error-handling pattern
loop, then the actual-error pattern loop, then assemble the result dict; a
`re.error` raised by either loop propagates to the caller. -/
def analyze_javascript_for_real_errors (js : String) :
    Except ReError AnalysisResult :=
  match runPatternGroup error_handling_patterns js with
  | .error e => .error e
  | .ok (hc, hm) =>
    match runPatternGroup actual_error_patterns js with
    | .error e => .error e
    | .ok (ac, am) =>
      .ok { error_handling_patterns := hc
            actual_errors := ac
            error_handling_examples := hm.take 5
            actual_error_examples := am.take 5
            likely_error_suppression := hc > 0 && ac == 0 }

/-! ## `apps/wallet/advanced_personapass_test.py` -/

/-- The `analyzeForErrors` method of the embedded Node simulation script: ten
global regexes, all literal, matched in order with `content.match(pattern)`
and the matches concatenated. -/
def jsAnalyzeForErrors (content : String) : List String :=
  let c := content.data
  ((findallLit "SyntaxError".data c) ++
   (findallLit "Invalid or unexpected token".data c) ++
   (findallLit "Node cannot be found".data c) ++
   (findallLit "Uncaught".data c) ++
   (findallLit "TypeError".data c) ++
   (findallLit "ReferenceError".data c) ++
   (findallLit "Cannot read property".data c) ++
   (findallLit "Cannot read properties of".data c) ++
   (findallLit "is not defined".data c) ++
   (findallLit "is not a function".data c)).map List.asString

/-- Outcome of the Node simulation's `fetchScript` promise: resolves with the
body on HTTP 200, rejects on any other status, request error, or timeout. -/
inductive JsFetchOutcome where
  | resolved (body : String)
  | rejected (msg : String)
deriving DecidableEq, Repr

/-- One iteration of the Node simulation's script loop (`for (const script of
scripts)`): non-`.js` scripts are skipped; a resolved fetch appends the
analysis matches; a rejected fetch (any failure, including non-200 and
timeout) appends `Script load error: <script>`. -/
def jsProcessScript (totalErrors : List String) (script : String)
    (outcome : JsFetchOutcome) : List String :=
  if strEndsWith script ".js" then
    match outcome with
    | .resolved body => totalErrors ++ jsAnalyzeForErrors body
    | .rejected _ => totalErrors ++ ["Script load error: " ++ script]
  else totalErrors

/-- Outcome of one `subprocess.run(['curl', '-s', script_url], …, timeout=15)`
call in `run_alternative_simulation`: the process completed with an exit code
and stdout, or `subprocess.TimeoutExpired` was raised, or some other
exception was raised. -/
inductive FetchOutcome where
  | completed (exitCode : Nat) (body : String)
  | timedOut
  | exn (msg : String)
deriving DecidableEq, Repr

/-- The per-pattern `re.findall` loop over a fetched script body in
`run_alternative_simulation` (lines 365–376): three literal patterns, one
`Uncaught.*Error`, one `TypeError.*not defined`, one literal, no flags,
matches concatenated in pattern order. -/
def altAnalyzeScript (content : String) : List String :=
  let c := content.data
  ((findallLit "SyntaxError".data c) ++
   (findallLit "Invalid or unexpected token".data c) ++
   (findallLit "Node cannot be found".data c) ++
   (dotStarAll "Uncaught".data "Error".data c) ++
   (dotStarAll "TypeError".data "not defined".data c) ++
   (findallLit "ReferenceError".data c)).map List.asString

/-- The accumulator of `run_alternative_simulation`'s script loop. -/
structure AltSimAcc where
  total_errors : List String
  scripts_analyzed : Nat
deriving DecidableEq, Repr

/-- One iteration of `run_alternative_simulation`'s script loop: non-`.js`
scripts are skipped; a completed curl with exit code 0 appends the pattern
matches and bumps `scripts_analyzed`; a completed curl with non-zero exit
code falls through the `if script_result.returncode == 0:` guard, appending
nothing; `subprocess.TimeoutExpired` appends `Script timeout: <script>`; any
other exception appends `Script error: <script> - <msg>`. -/
def processScript (acc : AltSimAcc) (script : String)
    (outcome : FetchOutcome) : AltSimAcc :=
  if strEndsWith script ".js" then
    match outcome with
    | .completed 0 body =>
      { total_errors := acc.total_errors ++ altAnalyzeScript body
        scripts_analyzed := acc.scripts_analyzed + 1 }
    | .completed _ _ => acc
    | .timedOut =>
      { acc with total_errors := acc.total_errors ++ ["Script timeout: " ++ script] }
    | .exn m =>
      { acc with total_errors :=
          acc.total_errors ++ ["Script error: " ++ script ++ " - " ++ m] }
  else acc

/-- The whole script loop, iterating over the scripts extracted from the HTML
paired with the outcome of each one's curl invocation. -/
def runScripts (acc : AltSimAcc) : List (String × FetchOutcome) → AltSimAcc
  | [] => acc
  | (s, o) :: rest => runScripts (processScript acc s o) rest

/-- The fields of the dict returned by `run_alternative_simulation` that the
comprehensive test reads. -/
structure AltSimReport where
  scripts_analyzed : Nat
  total_scripts : Nat
  total_errors : Nat
  error_details : List String
deriving DecidableEq, Repr

/-- `run_alternative_simulation`'s report assembly (lines 385–393):
`error_details` is `total_errors[:10]`. -/
def run_alternative_simulation (scripts : List (String × FetchOutcome)) : AltSimReport :=
  let acc := runScripts { total_errors := [], scripts_analyzed := 0 } scripts
  { scripts_analyzed := acc.scripts_analyzed
    total_scripts := (scripts.filter (fun p => strEndsWith p.1 ".js")).length
    total_errors := acc.total_errors.length
    error_details := acc.total_errors.take 10 }

/-- `syntax_errors` of `run_comprehensive_test` (line 497):
`'SyntaxError' in str(e) or 'Invalid or unexpected token' in str(e)` over the
report's `error_details`. -/
def syntaxErrorsFound (error_details : List String) : List String :=
  error_details.filter (fun e =>
    strContains e "SyntaxError" || strContains e "Invalid or unexpected token")

/-- `node_errors` of `run_comprehensive_test` (line 498):
`'Node cannot be found' in str(e)`. -/
def nodeErrorsFound (error_details : List String) : List String :=
  error_details.filter (fun e => strContains e "Node cannot be found")

/-- The three result fields of `run_comprehensive_test` that are derived from
`error_details` (lines 515–517); `not syntax_errors and not node_errors` is
emptiness of both filtered lists. -/
structure ComprehensiveVerdict where
  syntax_errors_found : List String
  node_errors_found : List String
  error_suppression_working : Bool
deriving DecidableEq, Repr

/-- The derivation of those fields from a simulation report:
`error_details = simulation_result.get('error_details', [])`, then the two
filters, then the conjunction. -/
def comprehensiveVerdict (sim : AltSimReport) : ComprehensiveVerdict :=
  let se := syntaxErrorsFound sim.error_details
  let ne := nodeErrorsFound sim.error_details
  { syntax_errors_found := se
    node_errors_found := ne
    error_suppression_working := se.isEmpty && ne.isEmpty }

/-- The same derivation as a function of the un-truncated error list, making
the `[:10]` truncation explicit. -/
def verdictFromTotalErrors (total_errors : List String) : ComprehensiveVerdict :=
  comprehensiveVerdict
    { scripts_analyzed := 0, total_scripts := 0
      total_errors := total_errors.length
      error_details := total_errors.take 10 }

/-! ## Helper lemmas -/

/-- A response whose URL matches no stored request leaves the request log
untouched. -/
theorem updateFirst_nomatch (reqs : List RequestEntry) (resp : RespData)
    (h : ∀ q ∈ reqs, q.url ≠ resp.url) : updateFirst reqs resp = reqs := by
  induction reqs with
  | nil => rfl
  | cons r rs ih =>
    have hr : r.url ≠ resp.url := h r (by simp)
    simp only [updateFirst, if_neg hr]
    rw [ih (fun q hq => h q (by simp [hq]))]

/-- The correlation merge never changes the number of stored requests. -/
theorem updateFirst_length (reqs : List RequestEntry) (resp : RespData) :
    (updateFirst reqs resp).length = reqs.length := by
  induction reqs with
  | nil => rfl
  | cons r rs ih =>
    by_cases h : r.url = resp.url
    · simp [updateFirst, if_pos h]
    · simp [updateFirst, if_neg h, ih]

/-- Every entry of the merged request log is the corresponding original
entry, either unchanged or with the response fields merged in. -/
theorem updateFirst_forall₂ (reqs : List RequestEntry) (resp : RespData) :
    List.Forall₂ (fun a b => b = a ∨ b = { a with response := some (respInfoOf resp) })
      reqs (updateFirst reqs resp) := by
  induction reqs with
  | nil => exact List.Forall₂.nil
  | cons r rs ih =>
    by_cases h : r.url = resp.url
    · simp only [updateFirst, if_pos h]
      exact List.Forall₂.cons (Or.inr rfl)
        (List.forall₂_same.mpr (fun x _ => Or.inl rfl))
    · simp only [updateFirst, if_neg h]
      exact List.Forall₂.cons (Or.inl rfl) ih

/-- A failed stored request carries recorded response fields. -/
theorem reqFailed_responded (r : RequestEntry) :
    reqFailed r = true → reqResponded r = true := by
  cases h : r.response <;> simp [reqFailed, reqResponded, h]

/-! ## Claim theorems -/

/-- C1. The claim says every text submitted to
`analyze_javascript_for_real_errors` is classified with the error-handling
matches disjoint from the genuine-error matches.  The code never classifies
anything: its sixth error-handling regex, `message\?\.\includes\("Node`,
contains the escape `\i`, which Python's `re` rejects, so the function raises
`re.error("bad escape \i")` on every input before producing any counts. -/
theorem analyze_javascript_never_classifies (js : String) :
    analyze_javascript_for_real_errors js = .error (.badEscape 'i') := rfl

/-- C8. For every recorded session state, the `failed_requests` derived by
the network-analysis block are a subset of the requests carrying recorded
response fields: their count is bounded by the responded-request count, and
every failed request has a recorded response. -/
theorem failed_requests_subset_responded (d : DebugData) :
    (failed_requests_of d).length ≤
      (d.network_requests.filter reqResponded).length ∧
    (failed_requests_of d).all (fun r => r.response.isSome) = true := by
  constructor
  · exact (List.monotone_filter_right _ reqFailed_responded).length_le
  · rw [List.all_eq_true]
    intro r hr
    have := (List.mem_filter.mp hr).2
    simpa using reqFailed_responded r this

/-- C9. The final-analysis block of `comprehensive_debug_investigation` and
the recommendations block of `analyze_wallet_errors` are pure functions of
the frozen logs: they leave their inputs unchanged, and running them a second
time on the same frozen inputs yields an identical report. -/
theorem aggregation_pure_and_idempotent (d : DebugData) (msgs : List ConsoleEntry) :
    (comprehensive_final_analysis d).1 = d ∧
    comprehensive_final_analysis ((comprehensive_final_analysis d).1) =
      comprehensive_final_analysis d ∧
    (wallet_recommendations msgs).1 = msgs ∧
    wallet_recommendations ((wallet_recommendations msgs).1) =
      wallet_recommendations msgs :=
  ⟨rfl, rfl, rfl, rfl⟩

/-- C5. The console message `["error", "Uncaught SyntaxError: Unexpected
token"]` is classified genuine (it is in `genuine_errors`, not in
`suppressed_errors`, and the wallet stats count it), and a session whose
console log holds it reports a console-errors critical issue. -/
theorem uncaught_syntax_error_is_genuine_and_critical :
    genuine_errors [⟨"error", "Uncaught SyntaxError: Unexpected token", none⟩] =
      [⟨"error", "Uncaught SyntaxError: Unexpected token", none⟩] ∧
    suppressed_errors [⟨"error", "Uncaught SyntaxError: Unexpected token", none⟩] = [] ∧
    (wallet_recommendations
        [⟨"error", "Uncaught SyntaxError: Unexpected token", none⟩]).2.genuine_error_count = 1 ∧
    (buildSummary
        { console_logs := [⟨"error", "Uncaught SyntaxError: Unexpected token", none⟩]
          network_requests := []
          errors := []
          page_state := ⟨none, none⟩ }).critical_issues =
      ["1 console errors detected"] := by
  refine ⟨?_, ?_, ?_, ?_⟩ <;> decide

/-- C10. The `syntax_errors_found` / `node_errors_found` /
`error_suppression_working` fields of the comprehensive test are derived from
the simulation report's `error_details`, which is `total_errors[:10]`; hence
they coincide with the derivation from the truncated list, and error strings
beyond the tenth cannot change the verdict. -/
theorem verdict_depends_on_first_ten_errors
    (scripts : List (String × FetchOutcome)) (te rest : List String)
    (h : 10 ≤ te.length) :
    comprehensiveVerdict (run_alternative_simulation scripts) =
      verdictFromTotalErrors
        (runScripts { total_errors := [], scripts_analyzed := 0 } scripts).total_errors ∧
    verdictFromTotalErrors (te ++ rest) = verdictFromTotalErrors te := by
  constructor
  · rfl
  · have htake : (te ++ rest).take 10 = te.take 10 := by
      rw [List.take_append_eq_append_take, Nat.sub_eq_zero_of_le h,
        List.take_zero, List.append_nil]
    simp [verdictFromTotalErrors, comprehensiveVerdict, htake]

/-- Witness for C10: with ten benign error strings collected first, an
eleventh entry containing `SyntaxError` does not change the verdict (in
particular `error_suppression_working` stays as computed from the first
ten). -/
theorem verdict_depends_on_first_ten_errors_wit :
    verdictFromTotalErrors
        (List.replicate 10 "Script timeout: /a.js" ++ ["SyntaxError at line 3"]) =
      verdictFromTotalErrors (List.replicate 10 "Script timeout: /a.js") :=
  (verdict_depends_on_first_ten_errors [] (List.replicate 10 "Script timeout: /a.js")
    ["SyntaxError at line 3"] (by simp)).2

/-- Two pending requests to the same URL (the second more recent), and two
responses to that URL, used to exercise the correlation rule. -/
def reqDup1 : RequestEntry :=
  { method := "GET", url := "https://s/assets/app.js", headers := []
    resource_type := "script", response := none }

/-- See `reqDup1`. -/
def reqDup2 : RequestEntry :=
  { method := "POST", url := "https://s/assets/app.js", headers := []
    resource_type := "fetch", response := none }

/-- A request to a different URL, recorded before the duplicates. -/
def reqOther : RequestEntry :=
  { method := "GET", url := "https://s/index.html", headers := []
    resource_type := "document", response := none }

/-- First response to the duplicated URL. -/
def respDupA : RespData :=
  { url := "https://s/assets/app.js", status := 200, status_text := "OK"
    headers := [("content-type", "application/javascript")] }

/-- Second response to the duplicated URL. -/
def respDupB : RespData :=
  { url := "https://s/assets/app.js", status := 404, status_text := "Not Found"
    headers := [("content-type", "text/html")] }

/-- C2 counterexample.  With two pending (unmatched) requests to the same
URL, the claim says the response is correlated to the most recently recorded
one (`reqDup2`) and that an already-matched request is never matched again.
The code instead merges the response into the *first* recorded request,
leaves the most recent one unmatched, and a second response to the same URL
re-matches — and overwrites — the already-matched first request. -/
theorem response_correlates_to_first_request_cx :
    updateFirst [reqDup1, reqDup2] respDupA =
      [{ reqDup1 with response := some (respInfoOf respDupA) }, reqDup2] ∧
    reqDup2.response = none ∧
    updateFirst (updateFirst [reqDup1, reqDup2] respDupA) respDupB =
      [{ reqDup1 with response := some (respInfoOf respDupB) }, reqDup2] :=
  ⟨rfl, rfl, rfl⟩

/-- C2 as amended: a response is correlated to the *earliest* recorded
request sharing its URL, regardless of whether that request was already
matched; every entry before it (with a different URL) and after it is left
unchanged, so a later duplicate request never receives the response. -/
theorem response_correlates_to_earliest_request
    (pre : List RequestEntry) (r : RequestEntry) (rest : List RequestEntry)
    (resp : RespData) (hpre : ∀ q ∈ pre, q.url ≠ resp.url)
    (hr : r.url = resp.url) :
    updateFirst (pre ++ r :: rest) resp =
      pre ++ { r with response := some (respInfoOf resp) } :: rest := by
  induction pre with
  | nil => simp [updateFirst, hr]
  | cons q qs ih =>
    have hq : q.url ≠ resp.url := hpre q (by simp)
    simp only [List.cons_append, updateFirst, if_neg hq, List.append_eq]
    rw [ih (fun x hx => hpre x (by simp [hx]))]

/-- Witness for the amended C2 at concrete inputs: with a non-matching
request first and two duplicated requests after it, the earliest duplicate
gets the response. -/
theorem response_correlates_to_earliest_request_wit :
    updateFirst [reqOther, reqDup1, reqDup2] respDupA =
      [reqOther, { reqDup1 with response := some (respInfoOf respDupA) }, reqDup2] :=
  response_correlates_to_earliest_request [reqOther] reqDup1 [reqDup2] respDupA
    (by decide) (by decide)

/-- C3 counterexample.  A successful (status 200) response to
`/assets/app.js` served as `text/html` emits no MIME-mismatch finding: the
check sits inside the `if not response.ok:` branch, so "regardless of the
status code" fails exactly when the success flag is true. -/
theorem mime_check_not_on_success_cx :
    respOk 200 = true ∧
    mime_issues
      { url := "https://s/assets/app.js", status := 200, status_text := "OK"
        headers := [("content-type", "text/html")] } = [] :=
  ⟨rfl, rfl⟩

/-- C3 as amended: the MIME-mismatch finding for a script URL served without
a `javascript` content type is emitted only for non-success responses — for
every response with success flag false, `.js` URL, and a content type not
containing `javascript`, the finding is emitted. -/
theorem mime_mismatch_on_failed_js_response (resp : RespData)
    (hok : respOk resp.status = false)
    (hjs : strEndsWith resp.url ".js" = true)
    (hct : strContains (headerGet resp.headers "content-type") "javascript" = false) :
    mime_issues resp =
      ["MIME TYPE ISSUE: JS file served as " ++ headerGet resp.headers "content-type"] := by
  simp [mime_issues, hok, hjs, hct]

/-- Witness for the amended C3: a 404 response to `/assets/app.js` served as
`text/html` emits the JS MIME-mismatch finding. -/
theorem mime_mismatch_on_failed_js_response_wit :
    mime_issues
      { url := "https://s/assets/app.js", status := 404
        status_text := "Not Found", headers := [("content-type", "text/html")] } =
      ["MIME TYPE ISSUE: JS file served as text/html"] :=
  mime_mismatch_on_failed_js_response
    { url := "https://s/assets/app.js", status := 404
      status_text := "Not Found", headers := [("content-type", "text/html")] }
    (by decide) (by decide) (by decide)

/-- C4 counterexample.  A session with one pending request to
`https://s/assets/app.js`; when its response arrives, the recorded request
event is edited in place (the stored list changes while its length does
not), contradicting "a recorded network request event is never edited in
place when its response arrives — a correction can only be made by recording
a new event". -/
theorem request_entry_mutated_in_place_cx :
    (handle_response
        { console_logs := [], network_requests := [reqDup1], errors := []
          page_state := ⟨none, none⟩ } respDupA).network_requests.length =
      [reqDup1].length ∧
    (handle_response
        { console_logs := [], network_requests := [reqDup1], errors := []
          page_state := ⟨none, none⟩ } respDupA).network_requests ≠ [reqDup1] :=
  ⟨rfl, by decide⟩

/-- C4 as amended: the console, request and page-error logs are append-only
(each handler appends one entry and touches nothing else), but the response
handler edits the correlated request entry in place — it never appends: the
request log keeps its length, and each stored entry is either unchanged or
is the original entry with the response fields merged in. -/
theorem recorder_append_only_except_response_merge :
    (∀ (d : DebugData) (m : ConsoleEntry),
        (handle_console d m).console_logs = d.console_logs ++ [m] ∧
        (handle_console d m).network_requests = d.network_requests ∧
        (handle_console d m).errors = d.errors) ∧
    (∀ (d : DebugData) (e : ErrorEntry),
        (handle_page_error d e).errors = d.errors ++ [e] ∧
        (handle_page_error d e).console_logs = d.console_logs ∧
        (handle_page_error d e).network_requests = d.network_requests) ∧
    (∀ (d : DebugData) (method url : String) (hs : List (String × String))
        (rt : String),
        (handle_request d method url hs rt).network_requests =
          d.network_requests ++
            [{ method := method, url := url, headers := hs
               resource_type := rt, response := none }]) ∧
    (∀ (reqs : List RequestEntry) (resp : RespData),
        (updateFirst reqs resp).length = reqs.length ∧
        List.Forall₂
          (fun a b => b = a ∨ b = { a with response := some (respInfoOf resp) })
          reqs (updateFirst reqs resp)) :=
  ⟨fun _ _ => ⟨rfl, rfl, rfl⟩,
   fun _ _ => ⟨rfl, rfl, rfl⟩,
   fun _ _ _ _ _ => rfl,
   fun reqs resp => ⟨updateFirst_length reqs resp, updateFirst_forall₂ reqs resp⟩⟩

/-- C6 counterexample.  An orphan response (no stored request shares its URL)
is *not* "logged and included in the session report": the handler leaves the
entire session state — every log — unchanged, so the derived report is the
one of a session that never saw the response; the orphan is silently
discarded. -/
theorem orphan_response_silently_dropped_cx :
    handle_response
        { console_logs := [], network_requests := [reqOther], errors := []
          page_state := ⟨none, none⟩ } respDupA =
      { console_logs := [], network_requests := [reqOther], errors := []
        page_state := ⟨none, none⟩ } ∧
    (comprehensive_final_analysis
        (handle_response
          { console_logs := [], network_requests := [reqOther], errors := []
            page_state := ⟨none, none⟩ } respDupA)).2 =
      (comprehensive_final_analysis
        { console_logs := [], network_requests := [reqOther], errors := []
          page_state := ⟨none, none⟩ }).2 :=
  ⟨by decide, by decide⟩

/-- C6 as amended: the response handler never fails on an orphan response —
it returns normally — but the orphan leaves the session state completely
unchanged: it is not recorded in any log nor visible in the report (when its
success flag is false it is merely echoed to the console printer). -/
theorem orphan_response_leaves_state_unchanged (d : DebugData) (resp : RespData)
    (h : ∀ q ∈ d.network_requests, q.url ≠ resp.url) :
    handle_response d resp = d := by
  show { d with network_requests := updateFirst d.network_requests resp } = d
  rw [updateFirst_nomatch d.network_requests resp h]

/-- Witness for the amended C6: a response to `https://s/missing.js` in a
session whose only request went to `https://s/index.html` leaves the state
unchanged. -/
theorem orphan_response_leaves_state_unchanged_wit :
    handle_response
        { console_logs := [], network_requests := [reqOther], errors := []
          page_state := ⟨none, none⟩ }
        { url := "https://s/missing.js", status := 200, status_text := "OK"
          headers := [] } =
      { console_logs := [], network_requests := [reqOther], errors := []
        page_state := ⟨none, none⟩ } :=
  orphan_response_leaves_state_unchanged _ _ (by decide)

/-- C7 counterexample.  A `.js` script whose curl fetch completes with a
non-zero exit code (a non-success result) falls through the
`if script_result.returncode == 0:` guard of `run_alternative_simulation`
with no `except` clause firing: no finding of any kind is appended — the
failure is silently dropped, contradicting "a 'script load error' finding is
appended to the collected error list rather than being silently dropped". -/
theorem nonzero_exit_fetch_no_finding_cx :
    (run_alternative_simulation
        [("/assets/app.js", .completed 1 "curl: could not resolve host")]).total_errors = 0 ∧
    (run_alternative_simulation
        [("/assets/app.js", .completed 1 "curl: could not resolve host")]).error_details = [] ∧
    (run_alternative_simulation
        [("/assets/app.js", .completed 1 "curl: could not resolve host")]).scripts_analyzed = 0 :=
  ⟨rfl, rfl, rfl⟩

/-- C7 as amended: in the curl fallback path a fetch timeout appends
`Script timeout: <script>` and any other raised exception appends
`Script error: <script> - <msg>`; in the Node simulation path every rejected
fetch (non-200 status, request error, or timeout) appends
`Script load error: <script>`; in both paths the loop then continues with
the remaining scripts.  But a curl invocation that completes with a non-zero
exit code appends nothing at all. -/
theorem fetch_failures_append_findings_and_continue
    (acc : AltSimAcc) (s : String) (te : List String) (rm : String)
    (ec : Nat) (body : String) (o : FetchOutcome)
    (rest : List (String × FetchOutcome))
    (hjs : strEndsWith s ".js" = true) (hec : ec ≠ 0) :
    processScript acc s .timedOut =
      { acc with total_errors := acc.total_errors ++ ["Script timeout: " ++ s] } ∧
    processScript acc s (.exn rm) =
      { acc with total_errors :=
          acc.total_errors ++ ["Script error: " ++ s ++ " - " ++ rm] } ∧
    jsProcessScript te s (.rejected rm) = te ++ ["Script load error: " ++ s] ∧
    processScript acc s (.completed ec body) = acc ∧
    runScripts acc ((s, o) :: rest) = runScripts (processScript acc s o) rest := by
  refine ⟨?_, ?_, ?_, ?_, rfl⟩
  · simp [processScript, hjs]
  · simp [processScript, hjs]
  · simp [jsProcessScript, hjs]
  · cases ec with
    | zero => exact absurd rfl hec
    | succ n => simp [processScript, hjs]

/-- Witness for the amended C7 at concrete inputs: a timed-out fetch of
`/assets/app.js` appends its timeout finding. -/
theorem fetch_failures_append_findings_and_continue_wit :
    processScript { total_errors := [], scripts_analyzed := 0 } "/assets/app.js"
        .timedOut =
      { total_errors := ["Script timeout: /assets/app.js"], scripts_analyzed := 0 } :=
  (fetch_failures_append_findings_and_continue
    { total_errors := [], scripts_analyzed := 0 } "/assets/app.js" [] "m" 1 "b"
    .timedOut [] (by decide) (by decide)).1
